import Mathlib

/-!
Verification of the Windows per-process backend (src/windows/process.rs).

The Rust source is shallowly embedded below. Machine integers (u64, u16,
i32 NTSTATUS values) are modelled as Nat or Int; wherever the source
performs an unchecked `-` on u64, the embedding uses `wsub64`, the
release-mode wrapping subtraction modulo 2^64 (in debug builds the same
operation panics on underflow). OS calls (OpenProcess,
NtQueryInformationProcess, GetProcessIoCounters, GetProcessTimes,
GetSystemTimes, ReadProcessMemory) are modelled as explicit oracle inputs,
so every function of the source becomes a pure function of its state and
of the readings the OS returned to it.
-/

/-- `check_sub` from process.rs: the saturating-subtraction clamp used by
the CPU sampler and by `get_start_and_run_time`.  Returns the minuend
unchanged when it is smaller than the subtrahend. -/
def check_sub (a b : Nat) : Nat :=
  if a < b then a else a - b

/-- Rust release-mode `-` on `u64`: wrapping subtraction modulo `2 ^ 64`.
In debug builds the same expression panics when the subtrahend exceeds the
minuend. -/
def wsub64 (a b : Nat) : Nat :=
  (a % 2 ^ 64 + (2 ^ 64 - b % 2 ^ 64)) % 2 ^ 64

/-- `get_start_and_run_time` from process.rs, as a function of the raw
64-bit FILETIME tick count (100 ns units since the Windows epoch) returned
by `GetProcessTimes` and of the caller-supplied `now`.  The epoch shift
`tmp / 10_000_000 - 11_644_473_600` is an unchecked u64 subtraction in the
source, hence `wsub64`; the run time uses `check_sub`. -/
def get_start_and_run_time (ticks now : Nat) : Nat × Nat :=
  let tmp := ticks
  let start := wsub64 (tmp / 10000000) 11644473600
  let run_time := check_sub now start
  (start, run_time)

/-- The `run_time` assignment of `Process::update` (process.rs line 350):
`self.run_time = now - self.start_time()`, an unchecked u64 subtraction. -/
def process_update_run_time (now start_time : Nat) : Nat :=
  wsub64 now start_time

/-- The four disk-usage byte fields of the `Process` struct, in their
declaration order. -/
structure DiskState where
  old_read_bytes : Nat
  old_written_bytes : Nat
  read_bytes : Nat
  written_bytes : Nat
  deriving Repr, DecidableEq

/-- The `DiskUsage` record returned by `ProcessExt::disk_usage`. -/
structure DiskUsage where
  written_bytes : Nat
  total_written_bytes : Nat
  read_bytes : Nat
  total_read_bytes : Nat
  deriving Repr, DecidableEq

/-- `ProcessExt::disk_usage` for this backend: the recent-usage deltas are
unchecked u64 subtractions `current - old` in the source, hence `wsub64`. -/
def disk_usage (p : DiskState) : DiskUsage :=
  { written_bytes := wsub64 p.written_bytes p.old_written_bytes
    total_written_bytes := p.written_bytes
    read_bytes := wsub64 p.read_bytes p.old_read_bytes
    total_read_bytes := p.read_bytes }

/-- `update_disk_usage` from process.rs.  The oracle argument is the
outcome of `GetProcessIoCounters`: `none` when the call returned 0
(failure), `some (read, written)` with the cumulative
`ReadTransferCount` / `WriteTransferCount` on success. -/
def update_disk_usage (p : DiskState) (counters : Option (Nat × Nat)) :
    DiskState :=
  match counters with
  | none => p
  | some (readTransferCount, writeTransferCount) =>
      { old_read_bytes := p.read_bytes
        old_written_bytes := p.written_bytes
        read_bytes := readTransferCount
        written_bytes := writeTransferCount }

lemma check_sub_self (a : Nat) : check_sub a a = 0 := by
  simp [check_sub]

lemma check_sub_eq_ite (a b : Nat) :
    check_sub a b = if a < b then a else a - b := rfl

lemma wsub64_of_le {a b : Nat} (hba : b ≤ a) (ha : a < 2 ^ 64) :
    wsub64 a b = a - b := by
  have hb : b < 2 ^ 64 := lt_of_le_of_lt hba ha
  unfold wsub64
  rw [Nat.mod_eq_of_lt ha, Nat.mod_eq_of_lt hb]
  omega

/-- The `CPUsageCalculationValues` struct of process.rs: the stored
previous tick readings of the CPU sampler. -/
structure CPUsageCalculationValues where
  old_process_sys_cpu : Nat
  old_process_user_cpu : Nat
  old_system_sys_cpu : Nat
  old_system_user_cpu : Nat
  deriving Repr, DecidableEq

/-- The raw readings one call of `compute_cpu_usage` obtains from
`GetProcessTimes` and `GetSystemTimes`, after the FILETIME-to-u64
conversion: process kernel (`sys`) and user ticks, machine-wide kernel
(idle included) and user ticks. -/
structure CpuTicks where
  sys : Nat
  user : Nat
  global_kernel_time : Nat
  global_user_time : Nat
  deriving Repr, DecidableEq

/-- `compute_cpu_usage` from process.rs as a state transformer: given the
stored previous readings, the fresh OS readings and the processor count,
it returns the new stored readings together with the `cpu_usage` value it
assigns.  The floating-point arithmetic of the source (f64 division,
narrowed to f32) is modelled exactly over the rationals.  When the
denominator is zero the source assigns `p.cpu_usage = 0.0` and returns
early, before the four assignments that advance the stored readings. -/
def compute_cpu_usage (st : CPUsageCalculationValues) (t : CpuTicks)
    (nb_processors : Nat) : CPUsageCalculationValues × Rat :=
  let delta_global_kernel_time :=
    check_sub t.global_kernel_time st.old_system_sys_cpu
  let delta_global_user_time :=
    check_sub t.global_user_time st.old_system_user_cpu
  let delta_user_time := check_sub t.user st.old_process_user_cpu
  let delta_sys_time := check_sub t.sys st.old_process_sys_cpu
  let denominator : Rat :=
    ((delta_global_user_time + delta_global_kernel_time : Nat) : Rat)
  if denominator = 0 then
    (st, 0)
  else
    (⟨t.sys, t.user, t.global_kernel_time, t.global_user_time⟩,
      100 * (((delta_user_time + delta_sys_time : Nat) : Rat) / denominator)
        * (nb_processors : Rat))

lemma compute_cpu_usage_of_denom_zero (st : CPUsageCalculationValues)
    (t : CpuTicks) (nb : Nat)
    (h : check_sub t.global_user_time st.old_system_user_cpu
        + check_sub t.global_kernel_time st.old_system_sys_cpu = 0) :
    compute_cpu_usage st t nb = (st, 0) := by
  unfold compute_cpu_usage
  simp only [h]
  norm_num

lemma compute_cpu_usage_of_denom_ne_zero (st : CPUsageCalculationValues)
    (t : CpuTicks) (nb : Nat)
    (h : check_sub t.global_user_time st.old_system_user_cpu
        + check_sub t.global_kernel_time st.old_system_sys_cpu ≠ 0) :
    compute_cpu_usage st t nb =
      (⟨t.sys, t.user, t.global_kernel_time, t.global_user_time⟩,
        100 * (((check_sub t.user st.old_process_user_cpu
              + check_sub t.sys st.old_process_sys_cpu : Nat) : Rat)
            / ((check_sub t.global_user_time st.old_system_user_cpu
              + check_sub t.global_kernel_time st.old_system_sys_cpu : Nat) : Rat))
          * (nb : Rat)) := by
  unfold compute_cpu_usage
  have h2 : ((check_sub t.global_user_time st.old_system_user_cpu
      + check_sub t.global_kernel_time st.old_system_sys_cpu : Nat) : Rat) ≠ 0 := by
    exact_mod_cast h
  simp only [h2]
  simp

/-- C1: the claim states that `Process::update`'s run_time computation and
`ProcessExt::disk_usage`'s current-minus-old subtractions are saturating
and can never wrap or panic on underflow.  The code contradicts this: both
use Rust's unchecked `-` on u64.  At `now = 0`, `start_time = 1` the
update path wraps to `2 ^ 64 - 1` (and panics in a debug build), where the
saturating `check_sub` used elsewhere in the same file would give 0; with
a regressed cumulative counter (`read_bytes = 3` after
`old_read_bytes = 7`) the disk read delta wraps to `2 ^ 64 - 4`. -/
theorem update_run_time_and_disk_usage_wrap_on_underflow :
    process_update_run_time 0 1 = 2 ^ 64 - 1 ∧
    (disk_usage ⟨7, 7, 3, 3⟩).read_bytes = 2 ^ 64 - 4 ∧
    check_sub 0 1 = 0 := by
  refine ⟨?_, ?_, by decide⟩
  · decide
  · decide

/-- C3 counterexample: the claim says run_time is computed via `check_sub`
on every refresh; but `Process::update` uses the unchecked u64 subtraction
`now - self.start_time()`, which at `now = 5`, `start_time = 10` yields
`2 ^ 64 - 5`, not `check_sub 5 10 = 5`. -/
theorem update_run_time_differs_from_check_sub :
    process_update_run_time 5 10 = 2 ^ 64 - 5 ∧
    check_sub 5 10 = 5 ∧
    process_update_run_time 5 10 ≠ check_sub 5 10 := by
  refine ⟨by decide, by decide, by decide⟩

/-- C3 amended: `check_sub a b` is `a` when `a < b` and `a - b` otherwise;
at record construction `get_start_and_run_time` computes run_time as
`check_sub now start`, so there run_time equals `now` itself whenever
`now < start_time`; on refresh, however, `Process::update` computes
run_time with the unchecked u64 subtraction, which agrees with `check_sub`
only when `now` is at least `start_time`. -/
theorem check_sub_clamp_and_run_time_paths :
    (∀ a b : Nat, (a < b → check_sub a b = a) ∧ (b ≤ a → check_sub a b = a - b)) ∧
    (∀ ticks now : Nat,
      (get_start_and_run_time ticks now).2 =
        check_sub now (get_start_and_run_time ticks now).1) ∧
    (∀ ticks now : Nat,
      now < (get_start_and_run_time ticks now).1 →
        (get_start_and_run_time ticks now).2 = now) ∧
    (∀ now start_time : Nat, start_time ≤ now → now < 2 ^ 64 →
      process_update_run_time now start_time = check_sub now start_time) := by
  refine ⟨?_, ?_, ?_, ?_⟩
  · intro a b
    constructor
    · intro h; simp [check_sub, h]
    · intro h; simp [check_sub, Nat.not_lt.mpr h]
  · intro ticks now
    simp [get_start_and_run_time]
  · intro ticks now h
    simp only [get_start_and_run_time] at h ⊢
    simp [check_sub, h]
  · intro now start_time hle hlt
    rw [process_update_run_time, wsub64_of_le hle hlt,
      check_sub_eq_ite, if_neg (Nat.not_lt.mpr hle)]

/-- C3 amended, witness at concrete inputs. -/
theorem check_sub_clamp_and_run_time_paths_witness :
    check_sub 3 5 = 3 ∧ check_sub 9 4 = 5 ∧
    (get_start_and_run_time 20000000 1).2 =
      check_sub 1 (get_start_and_run_time 20000000 1).1 ∧
    (4 ≤ 9 ∧ process_update_run_time 9 4 = check_sub 9 4) :=
  ⟨(check_sub_clamp_and_run_time_paths.1 3 5).1 (by decide),
   (check_sub_clamp_and_run_time_paths.1 9 4).2 (by decide),
   check_sub_clamp_and_run_time_paths.2.1 20000000 1,
   by decide,
   check_sub_clamp_and_run_time_paths.2.2.2 9 4 (by decide) (by decide)⟩

/-- C2 counterexample: with stored previous readings
`⟨0, 0, 7, 9⟩` and fresh readings `sys = 4`, `user = 3`,
`global_kernel = 7`, `global_user = 9`, the machine-tick deltas are both
zero, so the denominator is zero; the call returns usage 0 but, contrary
to the claim, the stored previous process ticks are NOT advanced to the
current readings: `old_process_user_cpu` stays 0 instead of becoming
`user = 3` (the early return precedes the four advancing assignments). -/
theorem compute_cpu_usage_zero_denominator_state_not_advanced :
    (compute_cpu_usage ⟨0, 0, 7, 9⟩ ⟨4, 3, 7, 9⟩ 2).2 = 0 ∧
    (compute_cpu_usage ⟨0, 0, 7, 9⟩ ⟨4, 3, 7, 9⟩ 2).1.old_process_user_cpu = 0 ∧
    CpuTicks.user ⟨4, 3, 7, 9⟩ = 3 ∧
    (0 : Nat) ≠ 3 := by
  refine ⟨by decide, by decide, rfl, by decide⟩

/-- C2 amended: when the denominator (delta of machine user ticks plus
delta of machine kernel ticks) is zero, `compute_cpu_usage` sets
`cpu_usage` to 0% and returns early WITHOUT advancing the stored previous
tick values: the whole `CPUsageCalculationValues` state is left exactly as
it was. -/
theorem compute_cpu_usage_zero_denominator_resets
    (st : CPUsageCalculationValues) (t : CpuTicks) (nb : Nat)
    (h : check_sub t.global_user_time st.old_system_user_cpu
        + check_sub t.global_kernel_time st.old_system_sys_cpu = 0) :
    compute_cpu_usage st t nb = (st, 0) :=
  compute_cpu_usage_of_denom_zero st t nb h

/-- C2 amended, witness at a concrete state and reading. -/
theorem compute_cpu_usage_zero_denominator_resets_witness :
    (check_sub 9 9 + check_sub 7 7 = 0) ∧
    compute_cpu_usage ⟨1, 2, 7, 9⟩ ⟨4, 3, 7, 9⟩ 2 = (⟨1, 2, 7, 9⟩, 0) :=
  ⟨by decide, compute_cpu_usage_zero_denominator_resets ⟨1, 2, 7, 9⟩ ⟨4, 3, 7, 9⟩ 2 (by decide)⟩

/-- C8: when the denominator is non-zero, `compute_cpu_usage` sets
`cpu_usage` to `100 * (delta process user + delta process kernel) /
(delta machine user + delta machine kernel) * processor count` (the f64
division narrowed to f32 is modelled exactly over the rationals; at the
claim's example all intermediate values are dyadic and exactly
representable in both f32 and f64, so the model agrees with the float
computation there — see the witness, which evaluates to exactly 50). -/
theorem compute_cpu_usage_formula
    (st : CPUsageCalculationValues) (t : CpuTicks) (nb : Nat)
    (h : check_sub t.global_user_time st.old_system_user_cpu
        + check_sub t.global_kernel_time st.old_system_sys_cpu ≠ 0) :
    (compute_cpu_usage st t nb).2 =
      100 * (((check_sub t.user st.old_process_user_cpu
            + check_sub t.sys st.old_process_sys_cpu : Nat) : Rat)
          / ((check_sub t.global_user_time st.old_system_user_cpu
            + check_sub t.global_kernel_time st.old_system_sys_cpu : Nat) : Rat))
        * (nb : Rat) := by
  rw [compute_cpu_usage_of_denom_ne_zero st t nb h]

/-- C8 witness: deltas process_user = 200, process_kernel = 50,
machine_user = 1000, machine_kernel = 1000, 4 processors: the usage is
exactly 50%. -/
theorem compute_cpu_usage_formula_witness :
    (check_sub 1000 0 + check_sub 1000 0 ≠ 0) ∧
    (compute_cpu_usage ⟨0, 0, 0, 0⟩ ⟨50, 200, 1000, 1000⟩ 4).2 = 50 := by
  refine ⟨by decide, ?_⟩
  rw [compute_cpu_usage_formula ⟨0, 0, 0, 0⟩ ⟨50, 200, 1000, 1000⟩ 4 (by decide)]
  norm_num [check_sub]

/-- C9: for every record state and every processor count, two consecutive
`compute_cpu_usage` calls that observe identical raw OS tick readings
produce a `cpu_usage` of 0% on the second call (either the first call
advanced the stored readings to the current ones, making every delta of
the second call zero, or the first call already had a zero denominator and
left the state unchanged, so the second call repeats it exactly). -/
theorem compute_cpu_usage_identical_readings_zero
    (st : CPUsageCalculationValues) (t : CpuTicks) (nb : Nat) :
    (compute_cpu_usage (compute_cpu_usage st t nb).1 t nb).2 = 0 := by
  by_cases h : check_sub t.global_user_time st.old_system_user_cpu
      + check_sub t.global_kernel_time st.old_system_sys_cpu = 0
  · simp [compute_cpu_usage_of_denom_zero st t nb h]
  · have h2 : (compute_cpu_usage st t nb).1 =
        ⟨t.sys, t.user, t.global_kernel_time, t.global_user_time⟩ := by
      rw [compute_cpu_usage_of_denom_ne_zero st t nb h]
    rw [h2, compute_cpu_usage_of_denom_zero _ t nb (by simp [check_sub_self])]

/-- C9 witness at a concrete state and reading. -/
theorem compute_cpu_usage_identical_readings_zero_witness :
    (compute_cpu_usage
      (compute_cpu_usage ⟨3, 1, 10, 20⟩ ⟨6, 8, 40, 60⟩ 8).1 ⟨6, 8, 40, 60⟩ 8).2 = 0 :=
  compute_cpu_usage_identical_readings_zero ⟨3, 1, 10, 20⟩ ⟨6, 8, 40, 60⟩ 8

/-- C7 counterexample: the claim's example uses raw ticks
132,670,000,000,000, but dividing that by 10,000,000 gives 13,267,000, not
the claimed 13,267,000,000; the subsequent epoch subtraction then
underflows and the code's u64 arithmetic wraps, so start_time is
18,446,744,062,078,345,016, not 1,622,526,400. -/
theorem start_time_example_ticks_mismatch :
    132670000000000 / 10000000 = 13267000 ∧
    (get_start_and_run_time 132670000000000 0).1 = 18446744062078345016 ∧
    (get_start_and_run_time 132670000000000 0).1 ≠ 1622526400 := by
  refine ⟨by decide, by decide, by decide⟩

/-- C7 amended: start time is computed from the 64-bit 100-nanosecond tick
count as seconds = ticks / 10,000,000 minus the fixed epoch offset
11,644,473,600 (whenever the subtraction does not underflow); the claim's
example holds at raw ticks = 132,670,000,000,000,000: seconds =
13,267,000,000 and start_time = 1,622,526,400. -/
theorem start_time_conversion :
    (∀ ticks now : Nat,
      11644473600 ≤ ticks / 10000000 → ticks / 10000000 < 2 ^ 64 →
        (get_start_and_run_time ticks now).1 = ticks / 10000000 - 11644473600) ∧
    132670000000000000 / 10000000 = 13267000000 ∧
    (get_start_and_run_time 132670000000000000 0).1 = 1622526400 := by
  refine ⟨?_, by decide, by decide⟩
  intro ticks now h1 h2
  simp only [get_start_and_run_time]
  exact wsub64_of_le h1 h2

/-- C7 amended, witness at the corrected example ticks. -/
theorem start_time_conversion_witness :
    (11644473600 ≤ 132670000000000000 / 10000000 ∧
      132670000000000000 / 10000000 < 2 ^ 64) ∧
    (get_start_and_run_time 132670000000000000 7).1 =
      132670000000000000 / 10000000 - 11644473600 :=
  ⟨⟨by decide, by decide⟩,
   start_time_conversion.1 132670000000000000 7 (by decide) (by decide)⟩

/-- STATUS_BUFFER_OVERFLOW (0x80000005) as an i32 NTSTATUS value. -/
def STATUS_BUFFER_OVERFLOW : Int := -2147483643

/-- STATUS_BUFFER_TOO_SMALL (0xC0000023) as an i32 NTSTATUS value. -/
def STATUS_BUFFER_TOO_SMALL : Int := -1073741789

/-- STATUS_INFO_LENGTH_MISMATCH (0xC0000004) as an i32 NTSTATUS value. -/
def STATUS_INFO_LENGTH_MISMATCH : Int := -1073741820

/-- NT_SUCCESS from winapi: an NTSTATUS denotes success exactly when it is
non-negative as an i32. -/
def NT_SUCCESS (status : Int) : Bool :=
  decide (0 ≤ status)

/-- The OS responses one call of `ph_query_process_variable_size`
observes: the status and reported byte length of the first
(null-buffer) query, the status of the second query, and the u16 contents
the second query writes into the buffer (position-indexed). -/
structure VariableSizeQueryEnv where
  status1 : Int
  return_length : Nat
  status2 : Int
  data : Nat → Nat

/-- `ph_query_process_variable_size` from process.rs: first query with a
null buffer; unless the status is buffer-overflow / buffer-too-small /
info-length-mismatch, return None; otherwise allocate a u16 buffer of
`return_length / 2` elements with capacity for one extra terminator
element, reissue the query, return None on any non-success status, and
otherwise push the terminating 0 and return the buffer. -/
def ph_query_process_variable_size (env : VariableSizeQueryEnv) :
    Option (List Nat) :=
  if env.status1 ≠ STATUS_BUFFER_OVERFLOW ∧
      env.status1 ≠ STATUS_BUFFER_TOO_SMALL ∧
      env.status1 ≠ STATUS_INFO_LENGTH_MISMATCH then
    none
  else
    let buf_len := env.return_length / 2
    let buffer := (List.range buf_len).map env.data
    if NT_SUCCESS env.status2 then some (buffer ++ [0]) else none

/-- C4: in the variable-size query protocol, a first phase whose status is
anything other than buffer-too-small / buffer-overflow / length-mismatch
yields None; any non-success second-phase status yields None; and every
returned buffer is exactly the reported size (in u16 elements,
return_length / 2) plus the one reserved terminator element, wholly filled
by the second-phase data — never a partially filled buffer. -/
theorem ph_query_variable_size_protocol (env : VariableSizeQueryEnv) :
    ((env.status1 ≠ STATUS_BUFFER_OVERFLOW ∧
        env.status1 ≠ STATUS_BUFFER_TOO_SMALL ∧
        env.status1 ≠ STATUS_INFO_LENGTH_MISMATCH) →
      ph_query_process_variable_size env = none) ∧
    (NT_SUCCESS env.status2 = false →
      ph_query_process_variable_size env = none) ∧
    (∀ buf, ph_query_process_variable_size env = some buf →
      buf.length = env.return_length / 2 + 1 ∧
      buf = (List.range (env.return_length / 2)).map env.data ++ [0]) := by
  refine ⟨?_, ?_, ?_⟩
  · intro h
    simp [ph_query_process_variable_size, h]
  · intro h
    unfold ph_query_process_variable_size
    by_cases h1 : env.status1 ≠ STATUS_BUFFER_OVERFLOW ∧
        env.status1 ≠ STATUS_BUFFER_TOO_SMALL ∧
        env.status1 ≠ STATUS_INFO_LENGTH_MISMATCH
    · simp [h1]
    · simp [h1, h]
  · intro buf hbuf
    unfold ph_query_process_variable_size at hbuf
    by_cases h1 : env.status1 ≠ STATUS_BUFFER_OVERFLOW ∧
        env.status1 ≠ STATUS_BUFFER_TOO_SMALL ∧
        env.status1 ≠ STATUS_INFO_LENGTH_MISMATCH
    · simp [h1] at hbuf
    · by_cases h2 : NT_SUCCESS env.status2
      · simp only [h1, if_false, h2, if_true, if_neg h1, if_pos h2,
          Option.some.injEq] at hbuf
        subst hbuf
        simp
      · simp [h1, h2] at hbuf

/-- C4 witness: a successful first-phase status (0) yields None; a
negotiated size with a failing second phase yields None; a negotiated size
of 10 bytes with a successful second phase yields the 5 data elements plus
the terminator. -/
theorem ph_query_variable_size_protocol_witness :
    ph_query_process_variable_size ⟨0, 10, 0, fun _ => 65⟩ = none ∧
    ph_query_process_variable_size
      ⟨STATUS_BUFFER_OVERFLOW, 10, -1, fun _ => 65⟩ = none ∧
    ([65, 65, 65, 65, 65, 0] : List Nat).length = 10 / 2 + 1 := by
  refine ⟨(ph_query_variable_size_protocol _).1 (by decide),
    (ph_query_variable_size_protocol _).2.1 (by decide), ?_⟩
  have h := (ph_query_variable_size_protocol
      ⟨STATUS_BUFFER_OVERFLOW, 10, 0, fun _ => 65⟩).2.2
    [65, 65, 65, 65, 65, 0] (by decide)
  exact h.1

/-- The scanning loop of `get_proc_env` from process.rs.  The source keeps
an index `begin` and repeatedly finds the position of the next NUL in
`raw_env[begin..]`; here the already-scanned prefix is dropped, so the
first argument is `raw_env[begin..]` and `acc` is the portion of the
current segment scanned so far.  A segment is accepted (and the scan
continues past its NUL) only if it contains the UTF-16 unit of the
character that equals 61, the code of the equals sign; a segment without
it stops the scan, as does running out of buffer without a NUL. -/
def get_proc_env_go : List Nat → List Nat → List (List Nat)
  | [], _ => []
  | c :: rest, acc =>
      if c = 0 then
        if acc.any (fun x => x == 61) then acc :: get_proc_env_go rest []
        else []
      else get_proc_env_go rest (acc ++ [c])

/-- `get_proc_env` from process.rs on a successfully read environment
block, as a function of the raw u16 buffer.  Accepted segments are
returned as raw u16 segments; their conversion to host strings
(OsString::from_wide) is the external string-conversion utility. -/
def get_proc_env (raw_env : List Nat) : List (List Nat) :=
  get_proc_env_go raw_env []

lemma get_proc_env_go_no_nul (seg : List Nat) (h : 0 ∉ seg) :
    ∀ acc, get_proc_env_go seg acc = [] := by
  induction seg with
  | nil => intro acc; rfl
  | cons c rest ih =>
      intro acc
      have hc : c ≠ 0 := fun hc => h (hc ▸ List.mem_cons_self c rest)
      have hrest : 0 ∉ rest := fun hm => h (List.mem_cons_of_mem c hm)
      simp only [get_proc_env_go, if_neg hc]
      exact ih hrest (acc ++ [c])

lemma get_proc_env_go_append (seg : List Nat) (h : 0 ∉ seg) :
    ∀ acc rest, get_proc_env_go (seg ++ 0 :: rest) acc =
      if (acc ++ seg).any (fun x => x == 61) then
        (acc ++ seg) :: get_proc_env_go rest []
      else [] := by
  induction seg with
  | nil =>
      intro acc rest
      simp [get_proc_env_go]
  | cons c s ih =>
      intro acc rest
      have hc : c ≠ 0 := fun hc => h (hc ▸ List.mem_cons_self c s)
      have hs : 0 ∉ s := fun hm => h (List.mem_cons_of_mem c hm)
      simp only [List.cons_append, get_proc_env_go, if_neg hc, List.append_eq]
      rw [ih hs (acc ++ [c]) rest]
      simp [List.append_assoc]

/-- C5: `get_proc_env` scans NUL-delimited segments of the raw buffer,
accepts a segment exactly when it contains the code 61 of the equals sign,
appends accepted segments in order, stops at the first segment without the
equals sign, and stops (accepting nothing further) when no NUL remains; in
particular the buffer "A=1\0B=2\0\0" yields ["A=1", "B=2"] and the buffer
"A=1\0NOEQUALS\0B=2\0" yields ["A=1"] only (segments given as their UTF-16
code units). -/
theorem get_proc_env_scan :
    (∀ seg rest : List Nat, 0 ∉ seg → 61 ∈ seg →
      get_proc_env (seg ++ 0 :: rest) = seg :: get_proc_env rest) ∧
    (∀ seg rest : List Nat, 0 ∉ seg → 61 ∉ seg →
      get_proc_env (seg ++ 0 :: rest) = []) ∧
    (∀ seg : List Nat, 0 ∉ seg → get_proc_env seg = []) ∧
    get_proc_env [65, 61, 49, 0, 66, 61, 50, 0, 0] =
      [[65, 61, 49], [66, 61, 50]] ∧
    get_proc_env [65, 61, 49, 0, 78, 79, 69, 81, 85, 65, 76, 83, 0, 66, 61, 50, 0] =
      [[65, 61, 49]] := by
  refine ⟨?_, ?_, ?_, by decide, by decide⟩
  · intro seg rest h0 h61
    unfold get_proc_env
    rw [get_proc_env_go_append seg h0 [] rest]
    have : seg.any (fun x => x == 61) = true := by
      simp only [List.any_eq_true, beq_iff_eq]
      exact ⟨61, h61, rfl⟩
    simp [this]
  · intro seg rest h0 h61
    unfold get_proc_env
    rw [get_proc_env_go_append seg h0 [] rest]
    have : seg.any (fun x => x == 61) = false := by
      simp only [List.any_eq_false, beq_iff_eq]
      intro x hx hx61
      exact h61 (hx61 ▸ hx)
    simp [this]
  · intro seg h0
    exact get_proc_env_go_no_nul seg h0 []

/-- C5 witness: concrete accepted segment, rejected segment, and
NUL-less tail. -/
theorem get_proc_env_scan_witness :
    ((0 : Nat) ∉ [65, 61, 49] ∧ (61 : Nat) ∈ [65, 61, 49] ∧
      get_proc_env ([65, 61, 49] ++ 0 :: [50, 0]) =
        [65, 61, 49] :: get_proc_env [50, 0]) ∧
    ((0 : Nat) ∉ [78, 79] ∧ (61 : Nat) ∉ [78, 79] ∧
      get_proc_env ([78, 79] ++ 0 :: [66, 61, 50, 0]) = []) ∧
    ((0 : Nat) ∉ [70, 71] ∧ get_proc_env [70, 71] = []) :=
  ⟨⟨by decide, by decide,
      get_proc_env_scan.1 [65, 61, 49] [50, 0] (by decide) (by decide)⟩,
   ⟨by decide, by decide,
      get_proc_env_scan.2.1 [78, 79] [66, 61, 50, 0] (by decide) (by decide)⟩,
   ⟨by decide, get_proc_env_scan.2.2.1 [70, 71] (by decide)⟩⟩

/-- PROCESS_QUERY_INFORMATION access right. -/
def PROCESS_QUERY_INFORMATION : Nat := 0x0400

/-- PROCESS_VM_READ access right. -/
def PROCESS_VM_READ : Nat := 0x0010

/-- The OS responses the two handle-acquiring construction paths observe:
`openProcess access pid` is the result of `OpenProcess` (`none` for a null
handle), `basicInformation handle` is the outcome of the
ProcessBasicInformation query (`none` for a non-zero status, otherwise the
`InheritedFromUniqueProcessId` it reports). -/
structure OsProcessEnv where
  openProcess : Nat → Nat → Option Nat
  basicInformation : Nat → Option Nat

/-- `get_process_handler` from process.rs, instrumented with a Bool
recording whether an `OpenProcess` call was attempted: for pid 0 it
returns `none` immediately; otherwise it requests
`PROCESS_QUERY_INFORMATION ||| PROCESS_VM_READ` and maps a null handle to
`none`. -/
def get_process_handler (env : OsProcessEnv) (pid : Nat) :
    Option Nat × Bool :=
  if pid = 0 then (none, false)
  else
    match env.openProcess (PROCESS_QUERY_INFORMATION ||| PROCESS_VM_READ) pid with
    | none => (none, true)
    | some process_handler => (some process_handler, true)

/-- The fields `Process::new_from_pid` computes before delegating to
`new_with_handle`. -/
structure NewFromPidResult where
  pid : Nat
  parent : Option Nat
  handle : Nat
  deriving Repr, DecidableEq

/-- `Process::new_from_pid` from process.rs, instrumented with a Bool
recording whether an `OpenProcess` call was attempted.  Note the source
calls `OpenProcess(PROCESS_QUERY_INFORMATION, FALSE, pid.0 as _)`
unconditionally — there is no pid == 0 guard on this path. -/
def new_from_pid (env : OsProcessEnv) (pid : Nat) :
    Option NewFromPidResult × Bool :=
  match env.openProcess PROCESS_QUERY_INFORMATION pid with
  | none => (none, true)
  | some process_handler =>
      match env.basicInformation process_handler with
      | none => (none, true)
      | some inherited_from =>
          (some ⟨pid,
            if inherited_from ≠ 0 then some inherited_from else none,
            process_handler⟩, true)

/-- C6 counterexample: the claim says no construction path attempts an OS
open call for pid 0, but `Process::new_from_pid` attempts `OpenProcess`
unconditionally: its open-attempted flag is true for pid 0. -/
theorem new_from_pid_attempts_open_for_pid_zero :
    (new_from_pid ⟨fun _ _ => none, fun _ => none⟩ 0).2 = true ∧
    ¬ (new_from_pid ⟨fun _ _ => none, fun _ => none⟩ 0).2 = false := by
  refine ⟨rfl, by decide⟩

/-- C6 amended: for pid 0, `get_process_handler` returns no handle
immediately without attempting any OS open call; `Process::new_from_pid`,
by contrast, always attempts the `OpenProcess` call, including for
pid 0. -/
theorem pid_zero_handle_acquisition (env : OsProcessEnv) :
    get_process_handler env 0 = (none, false) ∧
    (new_from_pid env 0).2 = true := by
  constructor
  · rfl
  · unfold new_from_pid
    split
    · rfl
    · split
      · rfl
      · rfl

/-- C6 amended, witness with an oracle that would even hand out a handle
for pid 0: `get_process_handler` still returns none without asking. -/
theorem pid_zero_handle_acquisition_witness :
    get_process_handler ⟨fun _ pid => some (pid + 100), fun _ => some 4⟩ 0 =
      (none, false) ∧
    (new_from_pid ⟨fun _ pid => some (pid + 100), fun _ => some 4⟩ 0).2 = true :=
  pid_zero_handle_acquisition ⟨fun _ pid => some (pid + 100), fun _ => some 4⟩

/-- C10: `update_disk_usage` is atomic on error: when the
`GetProcessIoCounters` read fails, all four disk byte fields are left
unchanged; on a successful read the previous totals are advanced to the
current ones and the current totals are replaced by the freshly read
cumulative counters. -/
theorem update_disk_usage_atomic (p : DiskState) :
    update_disk_usage p none = p ∧
    (∀ readTransferCount writeTransferCount : Nat,
      update_disk_usage p (some (readTransferCount, writeTransferCount)) =
        ⟨p.read_bytes, p.written_bytes, readTransferCount, writeTransferCount⟩) :=
  ⟨rfl, fun _ _ => rfl⟩

/-- C10 witness at a concrete state. -/
theorem update_disk_usage_atomic_witness :
    update_disk_usage ⟨1, 2, 3, 4⟩ none = ⟨1, 2, 3, 4⟩ ∧
    update_disk_usage ⟨1, 2, 3, 4⟩ (some (9, 11)) = ⟨3, 4, 9, 11⟩ :=
  ⟨(update_disk_usage_atomic ⟨1, 2, 3, 4⟩).1,
   (update_disk_usage_atomic ⟨1, 2, 3, 4⟩).2 9 11⟩
